import Mathlib

/-!
# Verification of `SequentialTask.py` (hmcalister/Sequential-Learning-Tensorflow)

Shallow embedding of `src/SequentialTask.py` — the `SequentialTask` class,
the `FunctionApproximationTask` subclass, and the tf.data pipeline they
build (`from_generator(...).batch(batch_size).repeat()`).

Modelling conventions:
* Scalars are `ℚ`.  A sample is a pair `(input vector, scalar target)`.
* `np.random` is a global lazy stream of uniform draws, embedded as a
  function `g : ℕ → ℚ` together with a running position; each call
  `np.random.uniform(lo, hi, d)` consumes the next `d` values of the
  stream, mapping each raw draw `u` to `lo + (hi - lo) * u`
  (numpy draws from the half-open interval `[lo, hi)`; the raw draws
  satisfy `0 ≤ u < 1`).
* tf.data datasets are pull-based: `Dataset.next j pos` yields the next
  batch given how many batches this iteration has already pulled (`j`)
  and the current random-stream position (`pos`), or `none` when the
  stream is exhausted.  `from_generator` datasets re-run the Python
  generator — consuming fresh randomness — every time `.repeat()`
  starts a new cycle, which is tf.data's documented behaviour.
* Keras `Model.fit` with a mid-epoch data exhaustion logs "Your input
  ran out of data", still records the partial epoch (its end-of-epoch
  validation included) in the history, and stops; only an epoch that
  yields zero batches raises `ValueError` ("Unexpected result of
  train_function (Empty logs)").  Keras `Model.evaluate` returns the
  logs of the last test step, so when no test step runs (`steps=0` or
  an immediately exhausted stream) it returns the empty dict.
  tf.data's `.batch(0)` raises `InvalidArgumentError` eagerly when the
  op is built, before any element is requested.
-/

namespace SequentialLearning

/-- A loss (or metric) object: a named scalar function of
`(y_true, y_pred)`, mirroring `tf.keras.losses.Loss`. -/
structure LossFn where
  name : String
  app : ℚ → ℚ → ℚ

/-- A `tf.keras.models.Model`: externally owned weights plus the
behaviour `compile` installs (optimizer, loss, metrics, eagerness).
`forward` is the prediction function and `trainStep` the external
optimizer/gradient update applied per batch — both are the model
collaborator's internals, opaque to the task. -/
structure Model where
  name : String
  weights : List ℚ
  forward : List ℚ → List ℚ → ℚ
  trainStep : List ℚ → List (List ℚ × ℚ) → List ℚ
  optimizer : String
  loss : LossFn
  metrics : List LossFn
  runEagerly : Bool

/-- `tf.keras.Model.compile`: installs a new optimizer/loss/metrics
configuration on the same model object; weights and architecture are
untouched (Keras recompilation does not rebuild the model). -/
def Model.compile (m : Model) (optimizer : String) (loss : LossFn)
    (metrics : List LossFn) (runEagerly : Bool) : Model :=
  { m with optimizer := optimizer, loss := loss, metrics := metrics,
           runEagerly := runEagerly }

/-- One batch of `(input, target)` samples. -/
abbrev Batch := List (List ℚ × ℚ)

/-- One history/evaluation record: metric name ↦ scalar value. -/
abbrev MetricRecord := List (String × ℚ)

/-- A `tf.data.Dataset`, pull-based: `next j pos` is the batch produced
after `j` batches have already been pulled in this iteration, given the
global random-stream position `pos`; it returns the batch and the
advanced position, or `none` on exhaustion. -/
structure Dataset where
  next : ℕ → ℕ → Option (Batch × ℕ)

/-- Pull up to `k` batches starting at iterator state `j` and stream
position `pos`.  Returns the batches obtained, the final position, and
whether the dataset ran out before supplying all `k`. -/
def pullAux (ds : Dataset) : ℕ → ℕ → ℕ → List Batch × ℕ × Bool
  | _, pos, 0 => ([], pos, false)
  | j, pos, Nat.succ k =>
    match ds.next j pos with
    | none => ([], pos, true)
    | some bp =>
      let r := pullAux ds (j + 1) bp.2 k
      (bp.1 :: r.1, r.2.1, r.2.2)

/-- Pull `k` batches from the start of a fresh iteration. -/
def Dataset.pull (ds : Dataset) (pos k : ℕ) : List Batch × ℕ × Bool :=
  pullAux ds 0 pos k

/-- Mean value of `f` over one batch under the model's predictions. -/
def batchMetric (f : LossFn) (m : Model) (b : Batch) : ℚ :=
  ((b.map fun s => f.app s.2 (m.forward m.weights s.1)).sum) / b.length

/-- Mean value of `f` over a list of batches. -/
def avgMetric (f : LossFn) (m : Model) (bs : List Batch) : ℚ :=
  ((bs.map (batchMetric f m)).sum) / bs.length

/-- The record Keras reports for a pass over `bs`: the compiled loss
under the key "loss", then each tracked metric under its own name. -/
def metricRecord (m : Model) (bs : List Batch) : MetricRecord :=
  ("loss", avgMetric m.loss m bs) ::
    m.metrics.map fun f => (f.name, avgMetric f m bs)

/-- Exceptions the TensorFlow collaborator raises: `valueError` for
Keras's "Empty logs" (an epoch ran zero batches), `invalidArgument`
for tf.data's `.batch(0)` check.  No `OutOfData` error exists in the
code; the constructor is here only so the spec's claim about it can be
stated. -/
inductive TFError where
  | outOfData : TFError
  | invalidArgument : TFError
  | valueError : TFError
deriving DecidableEq

/-- Result of a successful `Model.fit`: the per-epoch history and
whether training was cut short because the input ran out of data
mid-epoch (Keras logs a warning; the partial epoch is still in the
history). -/
structure FitResult where
  history : List MetricRecord
  interrupted : Bool
deriving DecidableEq

/-- The record of one completed (possibly partial) training epoch: the
training metrics over the batches that ran, and — when validation data
is present — the end-of-epoch validation metrics under `val_`-prefixed
keys.  Validation goes through the same last-step-logs convention as
`Model.evaluate`: zero validation steps contribute nothing. -/
def epochRecord (m : Model) (trainBatches : List Batch)
    (valds : Option Dataset) (valSteps pos : ℕ) : MetricRecord × ℕ :=
  match valds with
  | none => (metricRecord m trainBatches, pos)
  | some vds =>
    let vr := vds.pull pos valSteps
    (metricRecord m trainBatches ++
      ((if vr.1.isEmpty then [] else metricRecord m vr.1).map
        fun kv => ("val_" ++ kv.1, kv.2)),
     vr.2.1)

/-- The epoch loop of Keras `Model.fit` with `steps_per_epoch`: the
training iterator persists across epochs (`j` batches consumed so far);
each epoch pulls `steps` batches and applies the optimizer step per
batch.  An epoch that obtains zero batches raises `ValueError` ("Empty
logs").  An epoch cut short by data exhaustion logs a warning, still
records its partial epoch — end-of-epoch validation included — and
ends the fit with the `interrupted` flag.  Alongside the outcome the
model's in-place-updated weights and the stream position are returned
(in Python the model object keeps its trained weights even when `fit`
raises). -/
def fitEpochs (ds : Dataset) (steps : ℕ) (valds : Option Dataset)
    (valSteps : ℕ) :
    ℕ → ℕ → ℕ → Model → List MetricRecord →
      Except TFError FitResult × List ℚ × ℕ
  | 0, _, pos, m, recs => (Except.ok ⟨recs.reverse, false⟩, m.weights, pos)
  | Nat.succ e, j, pos, m, recs =>
    let pr := pullAux ds j pos steps
    let m1 : Model := { m with weights := pr.1.foldl m.trainStep m.weights }
    if pr.1.isEmpty then (Except.error TFError.valueError, m1.weights, pr.2.1)
    else
      let er := epochRecord m1 pr.1 valds valSteps pr.2.1
      if pr.2.2 then (Except.ok ⟨(er.1 :: recs).reverse, true⟩, m1.weights, er.2)
      else fitEpochs ds steps valds valSteps e (j + steps) er.2 m1 (er.1 :: recs)

/-- Keras `Model.fit`. -/
def Model.fit (m : Model) (ds : Dataset) (epochs steps : ℕ)
    (valds : Option Dataset) (valSteps : ℕ) (pos : ℕ) :
    Except TFError FitResult × List ℚ × ℕ :=
  fitEpochs ds steps valds valSteps epochs 0 pos m []

/-- The `SequentialTask` attribute record, one field per assignment in
`SequentialTask.__init__` (lines 71–82 of the source). -/
structure SequentialTask where
  name : String
  model : Model
  model_base_loss : LossFn
  training_dataset : Dataset
  training_batches : ℕ
  validation_dataset : Option Dataset
  validation_batches : ℕ
  batch_size : ℕ
  input_data_fn : Option (List ℚ → List ℚ)
  data_fn : Option (List ℚ → ℚ)
  x_lim : Option (ℚ × ℚ)
  y_lim : Option (ℚ × ℚ)

/-- `SequentialTask.compile_model`: recompiles the task's model with
the new loss, a fixed ADAM optimizer, `metrics=[self.model_base_loss]`
and `run_eagerly=False` (source lines 97–100). -/
def compile_model (t : SequentialTask) (loss_fn : LossFn) : SequentialTask :=
  { t with model := t.model.compile "ADAM" loss_fn [t.model_base_loss] false }

/-- Keyword arguments of `SequentialTask.__init__`, with the source's
defaults. -/
structure TaskArgs where
  name : String
  model : Model
  model_base_loss : LossFn
  training_dataset : Dataset
  training_batches : ℕ
  validation_dataset : Option Dataset := none
  validation_batches : ℕ := 0
  batch_size : ℕ := 0
  input_data_fn : Option (List ℚ → List ℚ) := none
  data_fn : Option (List ℚ → ℚ) := none
  x_lim : Option (ℚ × ℚ) := none
  y_lim : Option (ℚ × ℚ) := none

/-- `SequentialTask.__init__`: stores every argument as an attribute and
then self-compiles with the base loss (source line 84). -/
def SequentialTask.init (a : TaskArgs) : SequentialTask :=
  compile_model
    { name := a.name
      model := a.model
      model_base_loss := a.model_base_loss
      training_dataset := a.training_dataset
      training_batches := a.training_batches
      validation_dataset := a.validation_dataset
      validation_batches := a.validation_batches
      batch_size := a.batch_size
      input_data_fn := a.input_data_fn
      data_fn := a.data_fn
      x_lim := a.x_lim
      y_lim := a.y_lim }
    a.model_base_loss

/-- `SequentialTask.train_on_task`: delegates to `model.fit` with the
stored datasets and batch counts; `callbacks` are passed through to the
collaborator untouched.  The only task state affected is the model's
weights (mutated in place by `fit`). -/
def train_on_task (t : SequentialTask) (epochs : ℕ)
    (callbacks : List Unit) (pos : ℕ) :
    (Except TFError FitResult × ℕ) × SequentialTask :=
  let r := t.model.fit t.training_dataset epochs t.training_batches
      t.validation_dataset t.validation_batches pos
  ((r.1, r.2.2),
   { t with model := { t.model with weights := r.2.1 } })

/-- `SequentialTask.evaluate_model`: returns `{}` when there is no
validation dataset; otherwise one `model.evaluate` pass of
`validation_batches` batches.  Keras `evaluate` returns the logs of
the last test step, so when no test step runs (`steps=0`, or a stream
that is exhausted at once) the result is the empty dict.  The task
itself is returned unchanged — the method assigns nothing. -/
def evaluate_model (t : SequentialTask) (pos : ℕ) :
    (MetricRecord × ℕ) × SequentialTask :=
  match t.validation_dataset with
  | none => (([], pos), t)
  | some ds =>
    let r := ds.pull pos t.validation_batches
    ((if r.1.isEmpty then [] else metricRecord t.model r.1, r.2.1), t)

/-- `np.random.uniform(lo, hi)` applied to one raw draw `u` from the
unit interval: numpy samples the half-open interval `[lo, hi)` as
`lo + (hi - lo) * u` with `0 ≤ u < 1`. -/
def uniformDraw (lo hi u : ℚ) : ℚ := lo + (hi - lo) * u

/-- `np.random.uniform(x_lim[0], x_lim[1], independent_variables)`: one
independent-variable vector of `d` components, consuming the raw draws
`g pos, …, g (pos + d - 1)`. -/
def sampleVec (g : ℕ → ℚ) (pos d : ℕ) (lo hi : ℚ) : List ℚ :=
  (List.range d).map fun c => uniformDraw lo hi (g (pos + c))

/-- Parameters of `FunctionApproximationTask.__init__` (the `**kwargs`
passthrough to `super()` is modelled separately; see
`FunctionApproximationTask.init`). -/
structure FATParams where
  name : String
  model : Model
  model_base_loss : LossFn
  independent_variables : ℕ
  model_input_shape : List ℕ
  input_data_fn : List ℚ → List ℚ
  data_fn : List ℚ → ℚ
  training_batches : ℕ := 0
  validation_batches : ℕ := 0
  batch_size : ℕ := 32
  x_lim : ℚ × ℚ := (-1, 1)

/-- `FunctionApproximationTask.data_generator`: a `while i < max_samples`
loop that draws a fresh vector `x`, computes `y = data_fn(x)` and yields
`(input_data_fn(x), y)`.  Starting at stream position `pos`, sample `i`
consumes the draws at positions `pos + i*d … pos + i*d + d - 1`. -/
def data_generator (g : ℕ → ℚ) (p : FATParams) (pos max_samples : ℕ) :
    List (List ℚ × ℚ) :=
  (List.range max_samples).map fun i =>
    let x := sampleVec g (pos + i * p.independent_variables)
        p.independent_variables p.x_lim.1 p.x_lim.2
    (p.input_data_fn x, p.data_fn x)

/-- Number of batches one cycle of
`from_generator(max_samples).batch(batch_size)` yields: `⌈N / bs⌉`
(tf.data `batch` keeps the final partial batch).  The `batch_size = 0`
branch is unreachable behind the eager `.batch(0)` check of
`create_datasetE` and exists only to keep the function total. -/
def cycleBatchCount (max_samples batch_size : ℕ) : ℕ :=
  if batch_size = 0 then 0
  else (max_samples + batch_size - 1) / batch_size

/-- The stream semantics of `FunctionApproximationTask.create_dataset`
once `.batch` has been built successfully (`batch_size ≠ 0`):
`from_generator(data_generator, args=[max_samples]).batch(batch_size)
.repeat()`.  Pulling batch `j` groups the next consecutive generator
outputs; `.repeat()` re-runs the generator (with fresh draws from the
global stream) each cycle, and tf.data's `repeat` of an empty dataset
terminates instead of spinning, so an exhausted `max_samples = 0`
stream yields no batches.  The `batch_size = 0` disjunct is unreachable
behind `create_datasetE`'s eager check and only keeps the function
total. -/
def create_dataset (g : ℕ → ℚ) (p : FATParams) (max_samples : ℕ) : Dataset where
  next := fun j pos =>
    if max_samples = 0 ∨ p.batch_size = 0 then none
    else
      let sz := min p.batch_size
        (max_samples - (j % cycleBatchCount max_samples p.batch_size) * p.batch_size)
      some (data_generator g p pos sz, pos + sz * p.independent_variables)

/-- `FunctionApproximationTask.create_dataset` as actually invoked:
tf.data's `.batch(batch_size)` validates its argument eagerly when the
op is built — `batch_size = 0` raises `InvalidArgumentError` ("Batch
size must be greater than zero."), even over an empty generator —
otherwise the pipeline of `create_dataset` is returned. -/
def create_datasetE (g : ℕ → ℚ) (p : FATParams) (max_samples : ℕ) :
    Except TFError Dataset :=
  if p.batch_size = 0 then Except.error TFError.invalidArgument
  else Except.ok (create_dataset g p max_samples)

/-- The `FunctionApproximationTask` object: the inherited
`SequentialTask` attributes plus the subclass's own assignments
(source lines 200–205). -/
structure FunctionApproximationTask where
  toSequentialTask : SequentialTask
  model_input_shape : List ℕ
  independent_variables : ℕ
  training_samples : ℕ
  validation_samples : ℕ

/-- `FunctionApproximationTask.__init__`: sets the subclass attributes
(`training_samples` is assigned `batch_size` and immediately overwritten
with `training_batches * batch_size`, so only the product survives),
builds the training and validation datasets with
`create_dataset(batches * batch_size)`, and delegates to
`SequentialTask.__init__`.  `batch_size` is NOT forwarded to `super()`,
so the base constructor's default `0` overwrites the attribute; the
datasets captured the real batch size when `.batch` was applied.  The
`**kwargs` passthrough can only reach the remaining base default,
`y_lim`, modelled as the explicit optional argument `kw_y_lim`. -/
def FunctionApproximationTask.init (g : ℕ → ℚ) (p : FATParams)
    (kw_y_lim : Option (ℚ × ℚ)) : FunctionApproximationTask :=
  { toSequentialTask := SequentialTask.init
      { name := p.name
        model := p.model
        model_base_loss := p.model_base_loss
        input_data_fn := some p.input_data_fn
        data_fn := some p.data_fn
        training_dataset := create_dataset g p (p.training_batches * p.batch_size)
        training_batches := p.training_batches
        validation_dataset := some (create_dataset g p (p.validation_batches * p.batch_size))
        validation_batches := p.validation_batches
        x_lim := some p.x_lim
        y_lim := kw_y_lim }
    model_input_shape := p.model_input_shape
    independent_variables := p.independent_variables
    training_samples := p.training_batches * p.batch_size
    validation_samples := p.validation_batches * p.batch_size }

/-- `FunctionApproximationTask.__init__` including its failure mode:
the two `create_dataset` calls run during construction, and the eager
`.batch(0)` check inside them can raise before `super().__init__` is
reached — then no object is produced.  On success the constructed
object is exactly `FunctionApproximationTask.init`. -/
def FunctionApproximationTask.initE (g : ℕ → ℚ) (p : FATParams)
    (kw_y_lim : Option (ℚ × ℚ)) : Except TFError FunctionApproximationTask :=
  match create_datasetE g p (p.training_batches * p.batch_size),
        create_datasetE g p (p.validation_batches * p.batch_size) with
  | Except.error e, _ => Except.error e
  | Except.ok _, Except.error e => Except.error e
  | Except.ok _, Except.ok _ =>
      Except.ok (FunctionApproximationTask.init g p kw_y_lim)

/-- Random-stream position just before batch `j` is pulled, when a
dataset is iterated from position `pos`. -/
def iterState (ds : Dataset) (pos : ℕ) : ℕ → ℕ
  | 0 => pos
  | Nat.succ j =>
    match ds.next j (iterState ds pos j) with
    | some bp => bp.2
    | none => iterState ds pos j

/-- The `j`-th batch an iteration of `ds` started at position `pos`
produces (`none` once the dataset is exhausted). -/
def nthBatch (ds : Dataset) (pos j : ℕ) : Option Batch :=
  (ds.next j (iterState ds pos j)).map Prod.fst

/-! ## Concrete instances used by witnesses and counterexamples -/

/-- A concrete base loss (squared error), named as Keras would name the
tracked metric. -/
def demoLoss : LossFn := ⟨"base_mse", fun y p => (y - p) * (y - p)⟩

/-- A second loss, standing for a composite objective swapped in later. -/
def demoL2 : LossFn := ⟨"L2", fun y p => y - p⟩

/-- A concrete model collaborator: constant-zero predictor, identity
optimizer step. -/
def demoModel : Model :=
  { name := "m", weights := [0], forward := fun _ _ => 0,
    trainStep := fun w _ => w, optimizer := "", loss := demoLoss,
    metrics := [], runEagerly := false }

/-- A concrete random stream whose successive draws differ. -/
def demoG : ℕ → ℚ := fun n => (n : ℚ) / 2

/-- A concrete random stream with all draws equal (hence periodic with
every period) and inside `[0, 1)`. -/
def gU : ℕ → ℚ := fun _ => 1 / 2

/-- Concrete `FunctionApproximationTask` parameters: one independent
variable, one batch of one sample for both splits, domain `[0, 1)`. -/
def demoParams : FATParams :=
  { name := "T", model := demoModel, model_base_loss := demoLoss,
    independent_variables := 1, model_input_shape := [1],
    input_data_fn := id, data_fn := fun x => x.headI,
    training_batches := 1, validation_batches := 1, batch_size := 1,
    x_lim := (0, 1) }

/-- The concrete synthetic task built from `demoParams` and `demoG`. -/
def demoFAT : FunctionApproximationTask :=
  FunctionApproximationTask.init demoG demoParams none

/-- Its `SequentialTask` part. -/
def demoTask : SequentialTask := demoFAT.toSequentialTask

/-- The validation dataset `demoTask` carries. -/
def demoValDS : Dataset := create_dataset demoG demoParams 1

/-- A caller-supplied training dataset that yields only one batch,
fewer than the declared `training_batches = 2`. -/
def shortDS : Dataset :=
  ⟨fun j pos => if j < 1 then some ([([0], 0)], pos) else none⟩

/-- A task whose training stream runs out mid-epoch. -/
def shortTask : SequentialTask :=
  SequentialTask.init
    { name := "short", model := demoModel, model_base_loss := demoLoss,
      training_dataset := shortDS, training_batches := 2 }

/-- A deterministic two-batch validation stream: batch contents do not
depend on — and do not advance — the random-stream position. -/
def detF : ℕ → Option Batch :=
  fun j => if j < 2 then some [([0], 0)] else none

/-- The dataset induced by `detF`. -/
def detDS : Dataset := ⟨fun j pos => (detF j).map fun b => (b, pos)⟩

/-- A task with the deterministic validation stream `detDS`. -/
def detTask : SequentialTask :=
  SequentialTask.init
    { name := "det", model := demoModel, model_base_loss := demoLoss,
      training_dataset := shortDS, training_batches := 1,
      validation_dataset := some detDS, validation_batches := 2 }

/-- A training stream that yields nothing at all. -/
def emptyDS : Dataset := ⟨fun _ _ => none⟩

/-- A task whose first training epoch obtains zero batches. -/
def emptyTask : SequentialTask :=
  SequentialTask.init
    { name := "empty", model := demoModel, model_base_loss := demoLoss,
      training_dataset := emptyDS, training_batches := 1 }

/-- Concrete parameters with `training_batches = 0`. -/
def zeroParams : FATParams := { demoParams with training_batches := 0 }

/-- Concrete parameters with `batch_size = 0`. -/
def bsZeroParams : FATParams := { demoParams with batch_size := 0 }

/-- Concrete parameters with a validation dataset but
`validation_batches = 0`. -/
def vbZeroParams : FATParams := { demoParams with validation_batches := 0 }

/-- The synthetic task built from `vbZeroParams`: it stores a
validation dataset (the subclass always does) yet runs zero test
steps. -/
def vbZeroFAT : FunctionApproximationTask :=
  FunctionApproximationTask.init demoG vbZeroParams none

/-- The concrete fit result of one training epoch of the recompiled
demo task — used by the C1 witness. -/
def demoFR : FitResult :=
  ⟨[[("loss", 0), ("base_mse", 0), ("val_loss", 1/2), ("val_base_mse", 1/4)]],
   false⟩

/-! ## Helper lemmas -/

/-- The keys of a Keras metric record: "loss" first, then one key per
tracked metric. -/
lemma metricRecord_keys (m : Model) (bs : List Batch) :
    (metricRecord m bs).map Prod.fst = "loss" :: m.metrics.map LossFn.name := by
  simp [metricRecord, List.map_map, Function.comp]

/-- `evaluate_model` on a task without validation data. -/
lemma evaluate_model_none (t : SequentialTask) (pos : ℕ)
    (h : t.validation_dataset = none) :
    evaluate_model t pos = (([], pos), t) := by
  unfold evaluate_model
  rw [h]

/-- `evaluate_model` on a task with validation data: one
`model.evaluate` pass over the pulled batches, empty when no test step
ran. -/
lemma evaluate_model_some (t : SequentialTask) (ds : Dataset) (pos : ℕ)
    (h : t.validation_dataset = some ds) :
    evaluate_model t pos =
      ((if (ds.pull pos t.validation_batches).1.isEmpty then []
        else metricRecord t.model (ds.pull pos t.validation_batches).1,
        (ds.pull pos t.validation_batches).2.1), t) := by
  unfold evaluate_model
  rw [h]

/-- The keys of an epoch record always include every tracked metric's
name. -/
lemma epochRecord_key_mem (nm : String) (m : Model) (bs : List Batch)
    (valds : Option Dataset) (valSteps pos : ℕ)
    (hm : nm ∈ m.metrics.map LossFn.name) :
    nm ∈ (epochRecord m bs valds valSteps pos).1.map Prod.fst := by
  cases valds with
  | none =>
    show nm ∈ (metricRecord m bs).map Prod.fst
    rw [metricRecord_keys]
    exact List.mem_cons_of_mem _ hm
  | some vds =>
    show nm ∈ (metricRecord m bs ++ _).map Prod.fst
    rw [List.map_append]
    exact List.mem_append_left _
      (by rw [metricRecord_keys]; exact List.mem_cons_of_mem _ hm)

/-- Every record the `fit` epoch loop adds to the history — partial
final epochs included — carries every key named by the model's tracked
metrics (metrics are never changed by the per-batch weight updates). -/
lemma fitEpochs_keys (ds : Dataset) (steps : ℕ) (valds : Option Dataset)
    (valSteps : ℕ) (nm : String) :
    ∀ (e j pos : ℕ) (m : Model) (recs : List MetricRecord),
      nm ∈ m.metrics.map LossFn.name →
      (∀ r ∈ recs, nm ∈ r.map Prod.fst) →
      ∀ fr, (fitEpochs ds steps valds valSteps e j pos m recs).1 = Except.ok fr →
      ∀ r ∈ fr.history, nm ∈ r.map Prod.fst := by
  intro e
  induction e with
  | zero =>
    intro j pos m recs _ hr fr hfr r hmem
    simp only [fitEpochs] at hfr
    cases Except.ok.inj hfr
    exact hr r (List.mem_reverse.mp hmem)
  | succ e ih =>
    intro j pos m recs hm hr fr hfr r hmem
    by_cases hemp : (pullAux ds j pos steps).1.isEmpty = true
    · simp only [fitEpochs, hemp, if_true] at hfr
      exact Except.noConfusion hfr
    · by_cases hro : (pullAux ds j pos steps).2.2 = true
      · simp only [fitEpochs, hemp, Bool.false_eq_true, if_false, hro,
          if_true] at hfr
        cases Except.ok.inj hfr
        rcases List.mem_cons.mp (List.mem_reverse.mp hmem) with h | h
        · subst h
          exact epochRecord_key_mem nm _ _ valds valSteps _ hm
        · exact hr r h
      · simp only [fitEpochs, hemp, hro, Bool.false_eq_true, if_false] at hfr
        refine ih _ _ _ _ ?_ ?_ fr hfr r hmem
        · exact hm
        intro r' hr'
        rcases List.mem_cons.mp hr' with h | h
        · subst h
          exact epochRecord_key_mem nm _ _ valds valSteps _ hm
        · exact hr r' h

/-- The fit loop never produces an `outOfData` error: its only failure
is Keras's `valueError` for an epoch with zero batches. -/
lemma fitEpochs_no_outOfData (ds : Dataset) (steps : ℕ)
    (valds : Option Dataset) (valSteps : ℕ) :
    ∀ (e j pos : ℕ) (m : Model) (recs : List MetricRecord),
      (fitEpochs ds steps valds valSteps e j pos m recs).1 ≠
        Except.error TFError.outOfData := by
  intro e
  induction e with
  | zero =>
    intro j pos m recs h
    simp only [fitEpochs] at h
    exact Except.noConfusion h
  | succ e ih =>
    intro j pos m recs h
    by_cases hemp : (pullAux ds j pos steps).1.isEmpty = true
    · simp only [fitEpochs, hemp, if_true] at h
      exact TFError.noConfusion (Except.error.inj h)
    · by_cases hro : (pullAux ds j pos steps).2.2 = true
      · simp only [fitEpochs, hemp, Bool.false_eq_true, if_false, hro,
          if_true] at h
        exact Except.noConfusion h
      · simp only [fitEpochs, hemp, hro, Bool.false_eq_true, if_false] at h
        exact ih _ _ _ _ h

/-- When the dataset can supply every requested batch, pulling `k`
batches yields exactly `k` batches and does not run out. -/
lemma pullAux_length (ds : Dataset) :
    ∀ (k j pos : ℕ), (∀ i p, i < j + k → (ds.next i p).isSome) →
      (pullAux ds j pos k).1.length = k ∧ (pullAux ds j pos k).2.2 = false := by
  intro k
  induction k with
  | zero => intro j pos _; exact ⟨rfl, rfl⟩
  | succ k ih =>
    intro j pos h
    rcases Option.isSome_iff_exists.mp (h j pos (by omega)) with ⟨bp, hbp⟩
    have hrec := ih (j + 1) bp.2 (fun i p hi => h i p (by omega))
    constructor
    · simp only [pullAux, hbp]
      simp [hrec.1]
    · simp only [pullAux, hbp]
      exact hrec.2

/-- One cycle of `.batch(bs)` over `tb * bs` generated samples has
exactly `tb` batches. -/
lemma cycleBatchCount_mul (tb bs : ℕ) (hbs : 0 < bs) :
    cycleBatchCount (tb * bs) bs = tb := by
  unfold cycleBatchCount
  rw [if_neg (by omega)]
  rw [Nat.add_sub_assoc hbs, Nat.add_comm,
    Nat.add_mul_div_right _ _ hbs, Nat.div_eq_of_lt (by omega)]
  omega

/-- For a stream of `tb * bs` samples per cycle every batch is full:
`next` always succeeds, yields the `bs` generator outputs drawn at the
current stream position, and advances the position by `bs * d`. -/
lemma create_dataset_next_full (g : ℕ → ℚ) (p : FATParams) (tb : ℕ)
    (hbs : 0 < p.batch_size) (htb : 0 < tb) (j q : ℕ) :
    (create_dataset g p (tb * p.batch_size)).next j q =
      some (data_generator g p q p.batch_size,
            q + p.batch_size * p.independent_variables) := by
  have hN : ¬(tb * p.batch_size = 0 ∨ p.batch_size = 0) := by
    push_neg
    exact ⟨Nat.mul_ne_zero (by omega) (by omega), by omega⟩
  have hj : j % tb < tb := Nat.mod_lt j htb
  have hsub : tb * p.batch_size - j % (cycleBatchCount (tb * p.batch_size) p.batch_size) * p.batch_size
      = (tb - j % tb) * p.batch_size := by
    rw [cycleBatchCount_mul tb p.batch_size hbs, Nat.sub_mul]
  have hsz : min p.batch_size
      (tb * p.batch_size - j % (cycleBatchCount (tb * p.batch_size) p.batch_size) * p.batch_size)
      = p.batch_size := by
    rw [hsub]
    refine min_eq_left ?_
    calc p.batch_size = 1 * p.batch_size := (one_mul _).symm
      _ ≤ (tb - j % tb) * p.batch_size :=
          Nat.mul_le_mul_right _ (by omega)
  simp only [create_dataset, hN, if_false]
  rw [hsz]

/-- The generator emits one pair per requested sample. -/
lemma data_generator_length (g : ℕ → ℚ) (p : FATParams) (pos N : ℕ) :
    (data_generator g p pos N).length = N := by
  simp [data_generator]

/-! ## Claims -/

/-- C2: `compile_model` swaps only the model's trainable objective (and
the compile-time configuration `compile` installs); the model keeps its
identity, weights, prediction function and optimizer step — it is the
same trained model, not a freshly constructed one. -/
theorem C2_compile_preserves_weights (t : SequentialTask) (L : LossFn) :
    (compile_model t L).model.weights = t.model.weights ∧
    (compile_model t L).model.forward = t.model.forward ∧
    (compile_model t L).model.trainStep = t.model.trainStep ∧
    (compile_model t L).model.name = t.model.name ∧
    (compile_model t L).model.loss = L :=
  ⟨rfl, rfl, rfl, rfl, rfl⟩

/-- C10: `compile_model`, `train_on_task` and `evaluate_model` never
reassign any stored attribute of the task record — every field other
than the externally-owned `model` is exactly the one stored at
construction; `evaluate_model` returns the task entirely unchanged. -/
theorem C10_operations_frame (t : SequentialTask) (L : LossFn)
    (epochs : ℕ) (cb : List Unit) (pos : ℕ) :
    ((compile_model t L).name = t.name ∧
     (compile_model t L).model_base_loss = t.model_base_loss ∧
     (compile_model t L).training_dataset = t.training_dataset ∧
     (compile_model t L).training_batches = t.training_batches ∧
     (compile_model t L).validation_dataset = t.validation_dataset ∧
     (compile_model t L).validation_batches = t.validation_batches ∧
     (compile_model t L).batch_size = t.batch_size ∧
     (compile_model t L).input_data_fn = t.input_data_fn ∧
     (compile_model t L).data_fn = t.data_fn ∧
     (compile_model t L).x_lim = t.x_lim ∧
     (compile_model t L).y_lim = t.y_lim) ∧
    ((train_on_task t epochs cb pos).2.name = t.name ∧
     (train_on_task t epochs cb pos).2.model_base_loss = t.model_base_loss ∧
     (train_on_task t epochs cb pos).2.training_dataset = t.training_dataset ∧
     (train_on_task t epochs cb pos).2.training_batches = t.training_batches ∧
     (train_on_task t epochs cb pos).2.validation_dataset = t.validation_dataset ∧
     (train_on_task t epochs cb pos).2.validation_batches = t.validation_batches ∧
     (train_on_task t epochs cb pos).2.batch_size = t.batch_size ∧
     (train_on_task t epochs cb pos).2.input_data_fn = t.input_data_fn ∧
     (train_on_task t epochs cb pos).2.data_fn = t.data_fn ∧
     (train_on_task t epochs cb pos).2.x_lim = t.x_lim ∧
     (train_on_task t epochs cb pos).2.y_lim = t.y_lim) ∧
    (evaluate_model t pos).2 = t :=
  ⟨⟨rfl, rfl, rfl, rfl, rfl, rfl, rfl, rfl, rfl, rfl, rfl⟩,
   ⟨rfl, rfl, rfl, rfl, rfl, rfl, rfl, rfl, rfl, rfl, rfl⟩, by
    cases h : t.validation_dataset with
    | none => rw [evaluate_model_none t pos h]
    | some ds => rw [evaluate_model_some t ds pos h]⟩

/-- C1: every recompilation — the self-compilation at construction
included — installs `model_base_loss` as the tracked metric list, so
every subsequent training-history record (partial final epochs
included) and every nonempty evaluation record reports the base-loss
metric under its name (an evaluation that runs zero test steps
produces no record at all). -/
theorem C1_base_loss_always_tracked (t : SequentialTask) (L : LossFn)
    (epochs : ℕ) (cb : List Unit) (pos : ℕ) :
    (compile_model t L).model.metrics = [t.model_base_loss] ∧
    (∀ a : TaskArgs, (SequentialTask.init a).model.metrics = [a.model_base_loss]) ∧
    (∀ fr : FitResult,
      (train_on_task (compile_model t L) epochs cb pos).1.1 = Except.ok fr →
      ∀ r ∈ fr.history, t.model_base_loss.name ∈ r.map Prod.fst) ∧
    ((evaluate_model (compile_model t L) pos).1.1 ≠ [] →
      t.model_base_loss.name ∈
        ((evaluate_model (compile_model t L) pos).1.1.map Prod.fst)) := by
  refine ⟨rfl, fun a => rfl, ?_, ?_⟩
  · intro fr hfr r hr
    refine fitEpochs_keys (compile_model t L).training_dataset
      (compile_model t L).training_batches
      (compile_model t L).validation_dataset
      (compile_model t L).validation_batches _ epochs 0 pos
      (compile_model t L).model [] ?_ (by simp) fr hfr r hr
    simp [compile_model, Model.compile]
  · intro hne
    cases hv : t.validation_dataset with
    | none =>
      rw [evaluate_model_none (compile_model t L) pos hv] at hne
      exact absurd rfl hne
    | some ds =>
      have hds' : (compile_model t L).validation_dataset = some ds := hv
      rw [evaluate_model_some (compile_model t L) ds pos hds'] at hne ⊢
      by_cases hemp :
          (ds.pull pos (compile_model t L).validation_batches).1.isEmpty = true
      · rw [if_pos hemp] at hne
        exact absurd rfl hne
      · rw [if_neg hemp] at hne ⊢
        rw [metricRecord_keys]
        exact List.mem_cons_of_mem _ (by simp [compile_model, Model.compile])

/-- C5: for any requested sample count the generator emits exactly that
many pairs and completes; each pair is
`(input_transform x, target_fn x)` for the freshly drawn vector `x` of
`independent_variable_count` components consumed from the random
stream, and — whenever `lo < hi` and the raw draws are unit-interval —
every drawn component lies in `[lo, hi)`. -/
theorem C5_generator_protocol (g : ℕ → ℚ) (p : FATParams) (pos N : ℕ)
    (hlim : p.x_lim.1 < p.x_lim.2) (hg : ∀ n, 0 ≤ g n ∧ g n < 1) :
    (data_generator g p pos N).length = N ∧
    (∀ i, i < N →
      (data_generator g p pos N)[i]? =
        some (p.input_data_fn (sampleVec g (pos + i * p.independent_variables)
                p.independent_variables p.x_lim.1 p.x_lim.2),
              p.data_fn (sampleVec g (pos + i * p.independent_variables)
                p.independent_variables p.x_lim.1 p.x_lim.2))) ∧
    (∀ i, ∀ q ∈ sampleVec g i p.independent_variables p.x_lim.1 p.x_lim.2,
      p.x_lim.1 ≤ q ∧ q < p.x_lim.2) := by
  refine ⟨data_generator_length g p pos N, ?_, ?_⟩
  · intro i hi
    simp [data_generator, List.getElem?_map, List.getElem?_range, hi]
  · intro i q hq
    simp only [sampleVec, List.mem_map, List.mem_range] at hq
    rcases hq with ⟨c, _, rfl⟩
    have h0 := (hg (i + c)).1
    have h1 := (hg (i + c)).2
    have hd : 0 < p.x_lim.2 - p.x_lim.1 := by linarith
    unfold uniformDraw
    constructor
    · nlinarith
    · nlinarith

/-- C7 counterexample: `FunctionApproximationTask` always stores a
validation dataset, so a task with `validation_batches = 0` and a
present dataset is reachable; on it `evaluate_model` runs zero test
steps and returns the empty mapping even though `validation_dataset`
is not `None` — the claim's iff fails. -/
theorem C7_counterexample :
    FunctionApproximationTask.initE demoG vbZeroParams none =
      Except.ok vbZeroFAT ∧
    vbZeroFAT.toSequentialTask.validation_dataset ≠ none ∧
    (evaluate_model vbZeroFAT.toSequentialTask 0).1.1 = [] :=
  ⟨rfl, fun h => Option.noConfusion h, rfl⟩

/-- C7 (amended): `evaluate_model` returns the empty mapping, with no
error, exactly when the task has no validation dataset or no test step
runs (zero requested batches, or a stream exhausted at once); when a
validation dataset is present, `validation_batches` is positive and
the stream supplies the requested batches, evaluation consumes exactly
`validation_batches` batches and returns a mapping keyed by the loss
and every tracked metric. -/
theorem C7_amended_empty_iff_no_steps (t : SequentialTask) (pos : ℕ) :
    ((evaluate_model t pos).1.1 = [] ↔
      (t.validation_dataset = none ∨
        ∀ ds, t.validation_dataset = some ds →
          (ds.pull pos t.validation_batches).1 = [])) ∧
    (∀ ds, t.validation_dataset = some ds →
      0 < t.validation_batches →
      (∀ j q, j < t.validation_batches → (ds.next j q).isSome) →
      (ds.pull pos t.validation_batches).1.length = t.validation_batches ∧
      (evaluate_model t pos).1.1.map Prod.fst =
        "loss" :: t.model.metrics.map LossFn.name) := by
  cases h : t.validation_dataset with
  | none =>
    rw [evaluate_model_none t pos h]
    exact ⟨⟨fun _ => Or.inl rfl, fun _ => rfl⟩,
      fun ds hds => by simp at hds⟩
  | some ds0 =>
    rw [evaluate_model_some t ds0 pos h]
    constructor
    · by_cases hemp : (ds0.pull pos t.validation_batches).1.isEmpty = true
      · rw [if_pos hemp]
        refine ⟨fun _ => Or.inr fun ds hds => ?_, fun _ => rfl⟩
        injection hds with hds
        subst hds
        exact List.isEmpty_iff.mp hemp
      · rw [if_neg hemp]
        constructor
        · intro hmr
          exact absurd hmr (by simp [metricRecord])
        · intro hor
          rcases hor with hnone | hall
          · exact absurd hnone (by simp)
          · exact absurd (List.isEmpty_iff.mpr (hall ds0 rfl)) hemp
    · intro ds hds h0 havail
      injection hds with hds
      subst hds
      have hlen := (pullAux_length ds0 t.validation_batches 0 pos
        (fun i q hi => havail i q (by omega))).1
      refine ⟨hlen, ?_⟩
      have hlen' : (ds0.pull pos t.validation_batches).1.length =
          t.validation_batches := hlen
      have hemp : (ds0.pull pos t.validation_batches).1.isEmpty = false := by
        rcases hl : (ds0.pull pos t.validation_batches).1 with _ | ⟨a, l⟩
        · rw [hl] at hlen'
          simp at hlen'
          omega
        · rfl
      rw [if_neg (by rw [hemp]; exact Bool.false_ne_true)]
      exact metricRecord_keys _ _

/-- C7 witness for the amended claim: the demo task's validation
stream supplies its one requested batch; evaluation consumes exactly
one batch and reports the loss and the tracked base metric. -/
theorem C7_witness :
    (demoValDS.pull 0 demoTask.validation_batches).1.length =
      demoTask.validation_batches ∧
    (evaluate_model demoTask 0).1.1.map Prod.fst =
      "loss" :: demoTask.model.metrics.map LossFn.name :=
  (C7_amended_empty_iff_no_steps demoTask 0).2 demoValDS rfl (by decide)
    (fun _ _ _ => by simp [demoValDS, create_dataset, demoParams])

/-- C9 counterexample: with `batch_size = 0` the eager `.batch(0)`
check raises `InvalidArgumentError` during construction — even though
the generator would be empty — so no stream, zero-length or otherwise,
is produced. -/
theorem C9_counterexample :
    create_datasetE demoG bsZeroParams
      (bsZeroParams.training_batches * bsZeroParams.batch_size) =
      Except.error TFError.invalidArgument ∧
    FunctionApproximationTask.initE demoG bsZeroParams none =
      Except.error TFError.invalidArgument :=
  ⟨rfl, rfl⟩

/-- C9 (amended): with positive `batch_size` construction succeeds
(the checked constructor returns exactly the unchecked object), and
`training_batch_count = 0` then gives a valid zero-length stream: the
generator terminates at once with no samples and the
batched-and-repeated stream supplies no batch at any index (tf.data's
`repeat` of an empty dataset terminates rather than spinning), with
every definition involved total — nothing divides by zero or loops.
With `batch_size = 0` the eager `.batch(0)` check instead raises
`InvalidArgumentError` at construction, so no stream is produced. -/
theorem C9_amended_zero_cases (g : ℕ → ℚ) (p : FATParams) (pos j : ℕ)
    (kw : Option (ℚ × ℚ)) :
    (p.batch_size ≠ 0 →
      FunctionApproximationTask.initE g p kw =
        Except.ok (FunctionApproximationTask.init g p kw)) ∧
    (p.training_batches = 0 →
      data_generator g p pos (p.training_batches * p.batch_size) = [] ∧
      (create_dataset g p (p.training_batches * p.batch_size)).next j pos = none ∧
      nthBatch (create_dataset g p (p.training_batches * p.batch_size)) pos j
        = none ∧
      (FunctionApproximationTask.init g p kw).training_samples = 0) ∧
    (p.batch_size = 0 →
      create_datasetE g p (p.training_batches * p.batch_size) =
        Except.error TFError.invalidArgument ∧
      FunctionApproximationTask.initE g p kw =
        Except.error TFError.invalidArgument) := by
  refine ⟨?_, ?_, ?_⟩
  · intro hbs
    simp [FunctionApproximationTask.initE, create_datasetE, hbs]
  · intro htb
    have hz : p.training_batches * p.batch_size = 0 := by simp [htb]
    refine ⟨?_, ?_, ?_, ?_⟩
    · rw [hz]; simp [data_generator]
    · simp [create_dataset, hz]
    · simp [nthBatch, create_dataset, hz]
    · show p.training_batches * p.batch_size = 0
      exact hz
  · intro hbs
    constructor
    · simp [create_datasetE, hbs]
    · simp [FunctionApproximationTask.initE, create_datasetE, hbs]

/-- C9 witness for the amended claim: `training_batches = 0` with
positive batch size — construction succeeds and the stream is empty. -/
theorem C9_witness :
    FunctionApproximationTask.initE demoG zeroParams none =
      Except.ok (FunctionApproximationTask.init demoG zeroParams none) ∧
    data_generator demoG zeroParams 0
      (zeroParams.training_batches * zeroParams.batch_size) = [] ∧
    (create_dataset demoG zeroParams
      (zeroParams.training_batches * zeroParams.batch_size)).next 0 0 = none :=
  ⟨(C9_amended_zero_cases demoG zeroParams 0 0 none).1 (by decide),
   ((C9_amended_zero_cases demoG zeroParams 0 0 none).2.1 rfl).1,
   ((C9_amended_zero_cases demoG zeroParams 0 0 none).2.1 rfl).2.1⟩

/-- C6: construction computes `training_samples` and
`validation_samples` as `batches * batch_size`, builds both streams via
`create_dataset` over the shared generation protocol, and hands
everything to the base `SequentialTask` constructor — the subclass
defines no train/compile/evaluate of its own, so those operations are
exactly the base ones applied to the embedded task.  When the counts
are positive, the built stream serves full batches of `batch_size`
samples at every index (it repeats indefinitely). -/
theorem C6_construction (g : ℕ → ℚ) (p : FATParams) (kw : Option (ℚ × ℚ)) :
    (FunctionApproximationTask.init g p kw).training_samples =
      p.training_batches * p.batch_size ∧
    (FunctionApproximationTask.init g p kw).validation_samples =
      p.validation_batches * p.batch_size ∧
    (FunctionApproximationTask.init g p kw).toSequentialTask.training_dataset =
      create_dataset g p (p.training_batches * p.batch_size) ∧
    (FunctionApproximationTask.init g p kw).toSequentialTask.validation_dataset =
      some (create_dataset g p (p.validation_batches * p.batch_size)) ∧
    (FunctionApproximationTask.init g p kw).toSequentialTask.training_batches =
      p.training_batches ∧
    (FunctionApproximationTask.init g p kw).toSequentialTask.validation_batches =
      p.validation_batches ∧
    (FunctionApproximationTask.init g p kw).toSequentialTask =
      SequentialTask.init
        { name := p.name, model := p.model,
          model_base_loss := p.model_base_loss,
          input_data_fn := some p.input_data_fn,
          data_fn := some p.data_fn,
          training_dataset := create_dataset g p (p.training_batches * p.batch_size),
          training_batches := p.training_batches,
          validation_dataset := some (create_dataset g p (p.validation_batches * p.batch_size)),
          validation_batches := p.validation_batches,
          x_lim := some p.x_lim, y_lim := kw } ∧
    (0 < p.batch_size → 0 < p.training_batches → ∀ j q,
      (create_dataset g p (p.training_batches * p.batch_size)).next j q =
        some (data_generator g p q p.batch_size,
              q + p.batch_size * p.independent_variables) ∧
      (data_generator g p q p.batch_size).length = p.batch_size) := by
  refine ⟨rfl, rfl, rfl, rfl, rfl, rfl, rfl, ?_⟩
  intro hbs htb j q
  exact ⟨create_dataset_next_full g p p.training_batches hbs htb j q,
    data_generator_length g p q p.batch_size⟩

/-- C6 witness: the stream built from the concrete demo parameters
serves full batches. -/
theorem C6_witness :
    (0 < demoParams.batch_size ∧ 0 < demoParams.training_batches) ∧
    (create_dataset demoG demoParams
        (demoParams.training_batches * demoParams.batch_size)).next 0 0 =
      some (data_generator demoG demoParams 0 demoParams.batch_size,
            0 + demoParams.batch_size * demoParams.independent_variables) :=
  ⟨⟨by decide, by decide⟩,
   ((C6_construction demoG demoParams none).2.2.2.2.2.2.2
      (by decide) (by decide) 0 0).1⟩

/-- C4 counterexample setup is `shortTask` above: its training stream
yields one batch, `training_batches` claims two.  Training returns
normally — the partial epoch is recorded, the `interrupted` flag set —
instead of raising an `OutOfData` error (no such error exists in the
code). -/
theorem C4_counterexample :
    (train_on_task shortTask 1 [] 0).1.1 =
      Except.ok ⟨[[("loss", 0), ("base_mse", 0)]], true⟩ ∧
    (train_on_task shortTask 1 [] 0).1.1 ≠ Except.error TFError.outOfData := by
  have h : (train_on_task shortTask 1 [] 0).1.1 =
      Except.ok ⟨[[("loss", 0), ("base_mse", 0)]], true⟩ := by
    norm_num [train_on_task, Model.fit, fitEpochs, epochRecord, shortTask,
      shortDS, SequentialTask.init, compile_model, Model.compile, demoModel,
      demoLoss, Dataset.pull, pullAux, metricRecord, avgMetric, batchMetric]
  refine ⟨h, ?_⟩
  rw [h]
  exact fun hc => Except.noConfusion hc

/-- C4 (amended): `train_on_task` never raises an `OutOfData` error.
When the training stream runs out mid-epoch with at least one batch
obtained, the fit warns, records the partial epoch and returns it in
the history with the `interrupted` flag — truncation with a recorded
partial epoch, not an exception.  Only an epoch that obtains zero
batches raises the model collaborator's generic `ValueError` ("Empty
logs") — still not an `OutOfData` error. -/
theorem C4_amended_no_outOfData_error (t : SequentialTask)
    (epochs : ℕ) (cb : List Unit) (pos : ℕ) :
    ((train_on_task t epochs cb pos).1.1 ≠ Except.error TFError.outOfData) ∧
    (0 < epochs →
      (pullAux t.training_dataset 0 pos t.training_batches).2.2 = true →
      (pullAux t.training_dataset 0 pos t.training_batches).1 ≠ [] →
      ∃ rec, (train_on_task t epochs cb pos).1.1 =
        Except.ok ⟨[rec], true⟩) ∧
    (0 < epochs →
      (pullAux t.training_dataset 0 pos t.training_batches).1 = [] →
      (train_on_task t epochs cb pos).1.1 = Except.error TFError.valueError)
    := by
  refine ⟨?_, ?_, ?_⟩
  · exact fitEpochs_no_outOfData t.training_dataset t.training_batches
      t.validation_dataset t.validation_batches epochs 0 pos t.model []
  · intro hpos hran hne
    obtain ⟨e, rfl⟩ : ∃ e, epochs = e + 1 := ⟨epochs - 1, by omega⟩
    have hemp : (pullAux t.training_dataset 0 pos t.training_batches).1.isEmpty
        = false := by
      rcases hl : (pullAux t.training_dataset 0 pos t.training_batches).1 with
        _ | ⟨a, l⟩
      · exact absurd hl hne
      · rfl
    have hfe : (fitEpochs t.training_dataset t.training_batches
        t.validation_dataset t.validation_batches (e + 1) 0 pos t.model []).1 =
        Except.ok
          ⟨[(epochRecord
              { t.model with weights := (pullAux t.training_dataset 0 pos t.training_batches).1.foldl t.model.trainStep t.model.weights }
              (pullAux t.training_dataset 0 pos t.training_batches).1
              t.validation_dataset t.validation_batches
              (pullAux t.training_dataset 0 pos t.training_batches).2.1).1],
           true⟩ := by
      simp only [fitEpochs, hemp, Bool.false_eq_true, if_false, hran, if_true,
        List.reverse_cons, List.reverse_nil, List.nil_append]
    exact ⟨_, hfe⟩
  · intro hpos hnil
    obtain ⟨e, rfl⟩ : ∃ e, epochs = e + 1 := ⟨epochs - 1, by omega⟩
    have hemp : (pullAux t.training_dataset 0 pos t.training_batches).1.isEmpty
        = true := by rw [hnil]; rfl
    show (fitEpochs t.training_dataset t.training_batches
      t.validation_dataset t.validation_batches (e + 1) 0 pos t.model []).1 = _
    simp only [fitEpochs, hemp, if_true]

/-- C4 witness for the amended claim: the short task records its
partial epoch and stops with no error; the zero-batch task raises the
generic `ValueError`, not `OutOfData`. -/
theorem C4_witness :
    (∃ rec, (train_on_task shortTask 1 [] 0).1.1 =
      Except.ok ⟨[rec], true⟩) ∧
    (train_on_task emptyTask 1 [] 0).1.1 = Except.error TFError.valueError :=
  ⟨(C4_amended_no_outOfData_error shortTask 1 [] 0).2.1 (by decide) (by decide)
      (by decide),
   (C4_amended_no_outOfData_error emptyTask 1 [] 0).2.2 (by decide) (by decide)⟩

/-- Stream position before batch `j` of a full-batch synthetic stream:
each pulled batch consumes `batch_size * independent_variables` draws. -/
lemma iterState_synthetic (g : ℕ → ℚ) (p : FATParams) (tb : ℕ)
    (hbs : 0 < p.batch_size) (htb : 0 < tb) (pos : ℕ) :
    ∀ j, iterState (create_dataset g p (tb * p.batch_size)) pos j =
      pos + j * (p.batch_size * p.independent_variables) := by
  intro j
  induction j with
  | zero => simp [iterState]
  | succ j ih =>
    show (match (create_dataset g p (tb * p.batch_size)).next j
        (iterState (create_dataset g p (tb * p.batch_size)) pos j) with
      | some bp => bp.2
      | none => iterState (create_dataset g p (tb * p.batch_size)) pos j) = _
    rw [ih, create_dataset_next_full g p tb hbs htb]
    ring

/-- The `j`-th batch of the repeated synthetic stream is the group of
`batch_size` generator outputs drawn at stream offset
`j * batch_size * independent_variables`. -/
lemma nthBatch_synthetic (g : ℕ → ℚ) (p : FATParams) (tb : ℕ)
    (hbs : 0 < p.batch_size) (htb : 0 < tb) (pos j : ℕ) :
    nthBatch (create_dataset g p (tb * p.batch_size)) pos j =
      some (data_generator g p
        (pos + j * (p.batch_size * p.independent_variables)) p.batch_size) := by
  unfold nthBatch
  rw [iterState_synthetic g p tb hbs htb pos j,
    create_dataset_next_full g p tb hbs htb]
  rfl

/-- The generator's output depends on the random stream only through
the draws it actually consumes. -/
lemma data_generator_ext (g g' : ℕ → ℚ) (p : FATParams) (q q' n : ℕ)
    (h : ∀ c, g (q + c) = g' (q' + c)) :
    data_generator g p q n = data_generator g' p q' n := by
  unfold data_generator
  apply List.map_congr_left
  intro i _
  have hsv : sampleVec g (q + i * p.independent_variables)
      p.independent_variables p.x_lim.1 p.x_lim.2 =
      sampleVec g' (q' + i * p.independent_variables)
      p.independent_variables p.x_lim.1 p.x_lim.2 := by
    unfold sampleVec
    apply List.map_congr_left
    intro c _
    unfold uniformDraw
    rw [show q + i * p.independent_variables + c =
      q + (i * p.independent_variables + c) from by ring,
      h (i * p.independent_variables + c),
      show q' + (i * p.independent_variables + c) =
      q' + i * p.independent_variables + c from by ring]
  rw [hsv]

/-- A `T`-periodic stream is `k*T`-periodic for every `k`. -/
lemma periodic_iterate (g : ℕ → ℚ) (T : ℕ) (hg : ∀ m, g (m + T) = g m) :
    ∀ k m, g (m + k * T) = g m := by
  intro k
  induction k with
  | zero => intro m; simp
  | succ k ih =>
    intro m
    rw [show m + (k + 1) * T = m + k * T + T from by ring, hg, ih]

/-- C3 counterexample: with the concrete stream `demoG` (successive
draws differ), the first batch of the second cycle differs from the
first batch of the first cycle — `.repeat()` re-ran the generator on
fresh draws instead of replaying the pairs. -/
theorem C3_counterexample :
    nthBatch (create_dataset demoG demoParams
        (demoParams.training_batches * demoParams.batch_size)) 0
        (1 * demoParams.training_batches + 0) ≠
      nthBatch (create_dataset demoG demoParams
        (demoParams.training_batches * demoParams.batch_size)) 0 0 := by
  norm_num [nthBatch, iterState, create_dataset, cycleBatchCount,
    data_generator, sampleVec, uniformDraw, demoG, demoParams, List.range_succ]

/-- C3 (amended): once the batched sequence is exhausted, `.repeat()`
restarts the generator, so epoch `k+1`'s `j`-th batch equals epoch 1's
`j`-th batch evaluated at the random stream advanced by
`k * samples * independent_variables` draws — the same generation
process on fresh randomness, not a replay of the same pairs.  The
batches coincide exactly when the underlying draws do, in particular
whenever the random stream is periodic with the cycle's consumption as
period. -/
theorem C3_amended_repeat_restarts_generator (g : ℕ → ℚ) (p : FATParams)
    (pos k j : ℕ) (hbs : 0 < p.batch_size) (htb : 0 < p.training_batches) :
    (nthBatch (create_dataset g p (p.training_batches * p.batch_size)) pos
        (k * p.training_batches + j) =
      nthBatch (create_dataset g p (p.training_batches * p.batch_size))
        (pos + k * (p.training_batches * p.batch_size * p.independent_variables))
        j) ∧
    ((∀ m, g (m + p.training_batches * p.batch_size * p.independent_variables)
        = g m) →
      nthBatch (create_dataset g p (p.training_batches * p.batch_size)) pos
        (k * p.training_batches + j) =
      nthBatch (create_dataset g p (p.training_batches * p.batch_size)) pos j)
    := by
  constructor
  · rw [nthBatch_synthetic g p _ hbs htb, nthBatch_synthetic g p _ hbs htb]
    rw [show pos + (k * p.training_batches + j) *
        (p.batch_size * p.independent_variables) =
      pos + k * (p.training_batches * p.batch_size * p.independent_variables)
        + j * (p.batch_size * p.independent_variables) from by ring]
  · intro hper
    rw [nthBatch_synthetic g p _ hbs htb, nthBatch_synthetic g p _ hbs htb]
    refine congrArg some (data_generator_ext g g p _ _ _ ?_)
    intro c
    rw [show pos + (k * p.training_batches + j) *
        (p.batch_size * p.independent_variables) + c =
      (pos + j * (p.batch_size * p.independent_variables) + c) +
        k * (p.training_batches * p.batch_size * p.independent_variables)
        from by ring]
    exact periodic_iterate g _ hper k _

/-- C3 witness for the amended claim: under the constant (hence
periodic) stream `gU` the second cycle does replay the first. -/
theorem C3_witness :
    (0 < demoParams.batch_size ∧ 0 < demoParams.training_batches) ∧
    nthBatch (create_dataset gU demoParams
        (demoParams.training_batches * demoParams.batch_size)) 0
        (1 * demoParams.training_batches + 0) =
      nthBatch (create_dataset gU demoParams
        (demoParams.training_batches * demoParams.batch_size)) 0 0 :=
  ⟨⟨by decide, by decide⟩,
   (C3_amended_repeat_restarts_generator gU demoParams 0 1 0
      (by decide) (by decide)).2 (fun m => rfl)⟩

/-- Pulling from a dataset whose batches neither read nor advance the
random-stream position leaves the position unchanged. -/
lemma pullAux_det_pos (ds : Dataset) (f : ℕ → Option Batch)
    (hf : ∀ j q, ds.next j q = (f j).map fun b => (b, q)) :
    ∀ (k j pos : ℕ), (pullAux ds j pos k).2.1 = pos := by
  intro k
  induction k with
  | zero => intro j pos; rfl
  | succ k ih =>
    intro j pos
    cases hfj : f j with
    | none => simp [pullAux, hf j pos, hfj]
    | some b => simp [pullAux, hf j pos, hfj, ih (j + 1) pos]

/-- C8 counterexample: on the synthetic `demoTask`, two consecutive
`evaluate_model` calls return different metric mappings — each call
re-iterates the generator-backed validation dataset, drawing fresh
random validation samples. -/
theorem C8_counterexample :
    (evaluate_model demoTask ((evaluate_model demoTask 0).1.2)).1.1 ≠
      (evaluate_model demoTask 0).1.1 := by
  norm_num [evaluate_model, demoTask, demoFAT, FunctionApproximationTask.init,
    SequentialTask.init, compile_model, Model.compile, demoParams, demoModel,
    demoLoss, Dataset.pull, pullAux, create_dataset, cycleBatchCount,
    data_generator, sampleVec, uniformDraw, demoG, List.range_succ,
    metricRecord, avgMetric, batchMetric]

/-- C8 (amended): `evaluate_model` returns the task unchanged, its
result is independent of the training stream (so no training batch is
consumed), and two consecutive calls return identical metrics whenever
the validation stream's batches are independent of, and do not
advance, the random source — the failure mode is only the synthetic
re-drawn validation data. -/
theorem C8_amended_evaluate_frame (t : SequentialTask) (pos : ℕ) :
    ((evaluate_model t pos).2 = t) ∧
    (∀ t' : SequentialTask, t'.model = t.model →
      t'.validation_dataset = t.validation_dataset →
      t'.validation_batches = t.validation_batches →
      (evaluate_model t' pos).1 = (evaluate_model t pos).1) ∧
    (∀ (ds : Dataset) (f : ℕ → Option Batch), t.validation_dataset = some ds →
      (∀ j q, ds.next j q = (f j).map fun b => (b, q)) →
      (evaluate_model t ((evaluate_model t pos).1.2)).1.1 =
        (evaluate_model t pos).1.1) := by
  refine ⟨?_, ?_, ?_⟩
  · cases h : t.validation_dataset with
    | none => rw [evaluate_model_none t pos h]
    | some ds => rw [evaluate_model_some t ds pos h]
  · intro t' h1 h2 h3
    cases h : t.validation_dataset with
    | none => rw [evaluate_model_none t pos h, evaluate_model_none t' pos (h2.trans h)]
    | some ds =>
      rw [evaluate_model_some t ds pos h,
        evaluate_model_some t' ds pos (h2.trans h), h1, h3]
  · intro ds f hds hf
    have hp : (ds.pull pos t.validation_batches).2.1 = pos :=
      pullAux_det_pos ds f hf t.validation_batches 0 pos
    rw [evaluate_model_some t ds pos hds]
    simp only [hp]
    rw [evaluate_model_some t ds pos hds]

/-- C8 witness for the amended claim: with the deterministic validation
stream `detDS`, consecutive evaluations agree. -/
theorem C8_witness :
    detTask.validation_dataset = some detDS ∧
    (evaluate_model detTask ((evaluate_model detTask 0).1.2)).1.1 =
      (evaluate_model detTask 0).1.1 :=
  ⟨rfl, (C8_amended_evaluate_frame detTask 0).2.2 detDS detF rfl
    (fun _ _ => rfl)⟩

/-- C5 witness: concrete generator run with in-range draws. -/
theorem C5_witness :
    demoParams.x_lim.1 < demoParams.x_lim.2 ∧
    (data_generator gU demoParams 0 3).length = 3 :=
  ⟨by decide,
   (C5_generator_protocol gU demoParams 0 3 (by decide)
      (fun n => ⟨by norm_num [gU], by norm_num [gU]⟩)).1⟩

/-- C1 witness: after swapping in the composite loss `demoL2`, the
base-loss metric key is still present in the training record and in the
evaluation record. -/
theorem C1_witness :
    "base_mse" ∈
      (([("loss", (0 : ℚ)), ("base_mse", 0), ("val_loss", 1/2),
        ("val_base_mse", 1/4)] : MetricRecord).map Prod.fst) ∧
    "base_mse" ∈
      ((evaluate_model (compile_model demoTask demoL2) 0).1.1.map Prod.fst) :=
  ⟨(C1_base_loss_always_tracked demoTask demoL2 1 [] 0).2.2.1 demoFR
      (by
        norm_num [train_on_task, Model.fit, fitEpochs, epochRecord, demoTask,
          demoFAT, FunctionApproximationTask.init, SequentialTask.init,
          compile_model, Model.compile, demoParams, demoModel, demoLoss,
          demoL2, Dataset.pull, pullAux, create_dataset, cycleBatchCount,
          data_generator, sampleVec, uniformDraw, demoG, List.range_succ,
          metricRecord, avgMetric, batchMetric, demoFR]
        exact ⟨rfl, rfl⟩)
      [("loss", 0), ("base_mse", 0), ("val_loss", 1/2), ("val_base_mse", 1/4)]
      (by simp [demoFR]),
   (C1_base_loss_always_tracked demoTask demoL2 1 [] 0).2.2.2
      (by
        norm_num [evaluate_model, demoTask, demoFAT,
          FunctionApproximationTask.init, SequentialTask.init, compile_model,
          Model.compile, demoParams, demoModel, demoLoss, demoL2, Dataset.pull,
          pullAux, create_dataset, cycleBatchCount, data_generator, sampleVec,
          uniformDraw, demoG, List.range_succ, metricRecord, avgMetric,
          batchMetric]
        exact List.cons_ne_nil _ _)⟩

end SequentialLearning
